import Mathlib

/-
Verification of the remote-lock system: a Flask control server (server.py),
a polling lock agent (lock_agent.py) and a WebSocket unlock client
(laptop-client/unlock-client.py), shallowly embedded in Lean 4.
-/

namespace RemoteLock

namespace Server

/-- LockState (the `lock_state` dict in server.py).  `message` is an
`Option String` because a JSON body `\x7b"message": null\x7d` stores Python
`None`; `triggered_at` models `time.time()` as a natural number. -/
structure LockState where
  locked : Bool
  message : Option String
  triggered_at : Option Nat
  triggered_by : Option String
deriving DecidableEq, Repr

/-- The initial `lock_state` of server.py. -/
def initialLockState : LockState :=
  { locked := false
    message := some "⚠️ System Error Detected\n\nPlease contact your System Administrator\nto resolve this issue."
    triggered_at := none
    triggered_by := none }

/-- `data = request.get_json(silent=True) or \x7b\x7d` in the mutating
handlers.  A missing body, a non-JSON body and any falsy JSON value
(null, false, 0, "", an empty array or object) leave `data` the empty
dict (`emptyData`).  A JSON object gives a dict (`obj`, whose "message"
key is absent, null — `obj (some none)` — or a string).  Any truthy
non-object JSON value such as `[1]` is kept as `data` itself, and the
later `data.get` attribute lookup raises AttributeError mid-handler
(`truthyNonObj`). -/
inductive Body where
  | emptyData
  | obj (message : Option (Option String))
  | truthyNonObj
deriving DecidableEq, Repr

/-- An admin HTTP request as seen by the handlers: the `X-Lock-Secret`
header, the `secret` query parameter, and the JSON body. -/
structure Request where
  headerSecret : Option String
  querySecret : Option String
  body : Body
deriving DecidableEq, Repr

/-- `request.headers.get("X-Lock-Secret") or request.args.get("secret")`:
Python `or` falls through on a falsy left operand, i.e. on `None` and on
the empty string. -/
def effToken (r : Request) : Option String :=
  match r.headerSecret with
  | some s => if s = "" then r.querySecret else some s
  | none => r.querySecret

/-- Response of a mutating handler: `abort(403)`, a 500 from an uncaught
AttributeError, or `jsonify(ok, state)`. -/
inductive Response where
  | forbidden
  | serverError
  | ok (state : LockState)
deriving DecidableEq, Repr

/-- `require_auth` in server.py: `token != ADMIN_SECRET` aborts with 403
(a `None` token never equals the secret string). -/
def requireAuth (adminSecret : String) (r : Request) : Bool :=
  effToken r = some adminSecret

/-- GET /api/status: returns the current `lock_state` unchanged. -/
def status (s : LockState) : LockState := s

/-- POST /api/lock: after `require_auth`, runs in order
`locked := True`, `message := data.get("message", old)`,
`triggered_at := time.time()`, `triggered_by := request.remote_addr`.
On a truthy non-object body the `data.get` call raises AttributeError
after the first assignment, so only `locked` has changed when Flask
answers 500. -/
def lock (adminSecret : String) (s : LockState) (r : Request)
    (now : Nat) (remoteAddr : String) : Response × LockState :=
  if requireAuth adminSecret r then
    match r.body with
    | .truthyNonObj => (.serverError, { s with locked := true })
    | .emptyData =>
      let s2 : LockState :=
        { locked := true
          message := s.message
          triggered_at := some now
          triggered_by := some remoteAddr }
      (.ok s2, s2)
    | .obj m =>
      let s2 : LockState :=
        { locked := true
          message := m.getD s.message
          triggered_at := some now
          triggered_by := some remoteAddr }
      (.ok s2, s2)
  else (.forbidden, s)

/-- POST /api/unlock: after `require_auth`, sets `locked := False` and
`triggered_at := time.time()`; `message` and `triggered_by` untouched. -/
def unlock (adminSecret : String) (s : LockState) (r : Request)
    (now : Nat) : Response × LockState :=
  if requireAuth adminSecret r then
    let s2 : LockState := { s with locked := false, triggered_at := some now }
    (.ok s2, s2)
  else (.forbidden, s)

/-- POST /api/message: after `require_auth`, sets only
`message := data.get("message", old)`.  On a truthy non-object body the
`data.get` call raises AttributeError before any write, so the state is
unchanged when Flask answers 500. -/
def updateMessage (adminSecret : String) (s : LockState) (r : Request) :
    Response × LockState :=
  if requireAuth adminSecret r then
    match r.body with
    | .truthyNonObj => (.serverError, s)
    | .emptyData =>
      let s2 : LockState := { s with message := s.message }
      (.ok s2, s2)
    | .obj m =>
      let s2 : LockState := { s with message := m.getD s.message }
      (.ok s2, s2)
  else (.forbidden, s)

end Server

namespace Client

/-- A message arriving on the push channel: either not JSON-decodable
(`json.loads` raises `JSONDecodeError`) or a decoded object whose "type"
field is `msg.get("type")` (absent gives `none`). -/
inductive WireMsg where
  | malformed
  | tagged (t : Option String)
deriving DecidableEq, Repr

/-- Side effects the unlock client emits (the Platform Action collaborator
and other observable calls). -/
inductive ClientAction where
  | sendAuth
  | startPing
  | unlockScreen
  | logError
  | sleep (seconds : Nat)
deriving DecidableEq, Repr

/-- State of an `UnlockClient` instance (unlock-client.py).  `connected`
models whether the websocket is open; `authenticated` and
`reconnectDelay` are the attributes set in `__init__`.  `lastPongAt` is
the field named by the spec for the session; no code in
unlock-client.py defines or writes such an attribute — it is carried here
so that the spec claim about it can be stated. -/
structure ClientState where
  connected : Bool
  authenticated : Bool
  reconnectDelay : Nat
  lastPongAt : Option Nat
deriving DecidableEq, Repr

/-- `UnlockClient.__init__`: `authenticated = False`, `reconnect_delay = 2`,
no socket yet. -/
def initClient : ClientState :=
  { connected := false
    authenticated := false
    reconnectDelay := 2
    lastPongAt := none }

/-- `UnlockClient._on_message`: drop undecodable messages, set
`authenticated` and start the ping thread on AUTH_OK, call
`unlock_screen()` on UNLOCK, do nothing on PONG, log on ERROR; any other
tag (including LOCK, for which there is no branch) falls through with no
effect. -/
def onMessage (s : ClientState) : WireMsg → ClientState × List ClientAction
  | .malformed => (s, [])
  | .tagged t =>
    if t = some "AUTH_OK" then ({ s with authenticated := true }, [.startPing])
    else if t = some "UNLOCK" then (s, [.unlockScreen])
    else if t = some "PONG" then (s, [])
    else if t = some "ERROR" then (s, [.logError])
    else (s, [])

/-- Events driving one `UnlockClient`: the socket opens (`_on_open`), a
message arrives (`_on_message`), or the connection attempt ends
(`_on_close` followed by the `run_forever` sleep-and-double step). -/
inductive ClientEvent where
  | opened
  | recv (m : WireMsg)
  | closed
deriving DecidableEq, Repr

/-- One step of the client: `_on_open` resets `reconnect_delay` to 2 and
sends AUTH; `_on_close` clears `authenticated`, then `run_forever` sleeps
`reconnect_delay` seconds and sets it to `min(delay * 2, 60)`. -/
def step (s : ClientState) : ClientEvent → ClientState × List ClientAction
  | .opened => ({ s with connected := true, reconnectDelay := 2 }, [.sendAuth])
  | .recv m => onMessage s m
  | .closed =>
    ({ s with connected := false, authenticated := false,
              reconnectDelay := min (s.reconnectDelay * 2) 60 },
     [.sleep s.reconnectDelay])

/-- Run a sequence of events, returning the final state. -/
def runState (s : ClientState) : List ClientEvent → ClientState
  | [] => s
  | e :: es => runState (step s e).1 es

/-- Run a sequence of events, collecting the emitted actions in order. -/
def runActs (s : ClientState) : List ClientEvent → List ClientAction
  | [] => []
  | e :: es => (step s e).2 ++ runActs (step s e).1 es

/-- Process a list of received messages through `_on_message`. -/
def processMessages (s : ClientState) : List WireMsg → ClientState × List ClientAction
  | [] => (s, [])
  | m :: ms =>
    let r := onMessage s m
    let rest := processMessages r.1 ms
    (rest.1, r.2 ++ rest.2)

/-- The seconds slept between attempts, extracted from an action trace. -/
def sleepsOf : List ClientAction → List Nat
  | [] => []
  | .sleep n :: rest => n :: sleepsOf rest
  | _ :: rest => sleepsOf rest

/-- `run_forever` backoff update: `min(delay * 2, 60)`. -/
def nextDelay (d : Nat) : Nat := min (d * 2) 60

/-- Delays slept over `n` consecutive failed attempts starting at delay `d`. -/
def sleepSeq (d : Nat) : Nat → List Nat
  | 0 => []
  | n + 1 => d :: sleepSeq (nextDelay d) n

end Client

namespace Poll

/-- A parsed /api/status snapshot as `LockAgent.poll` reads it:
`data.get("locked", False)` and `data.get("message", ...)`. -/
structure Snapshot where
  locked : Bool
  message : String
deriving DecidableEq, Repr

/-- UI work triggered by the poll loop. -/
inductive UiAction where
  | raiseLock (message : String)
  | lowerLock
deriving DecidableEq, Repr

/-- One iteration of `LockAgent.poll`: show the lock on a false→true edge,
hide it on a true→false edge, otherwise do nothing; `was_locked` becomes
the observed value. -/
def pollStep (wasLocked : Bool) (snap : Snapshot) : Bool × Option UiAction :=
  if snap.locked && !wasLocked then (snap.locked, some (.raiseLock snap.message))
  else if !snap.locked && wasLocked then (snap.locked, some .lowerLock)
  else (snap.locked, none)

/-- Run the poll loop over a list of snapshots, collecting UI transitions.
`was_locked` starts as the given flag (`False` at loop entry). -/
def pollRun (wasLocked : Bool) : List Snapshot → Bool × List UiAction
  | [] => (wasLocked, [])
  | snap :: rest =>
    let r := pollStep wasLocked snap
    let tail := pollRun r.1 rest
    (tail.1, (r.2.toList) ++ tail.2)

end Poll

end RemoteLock

open RemoteLock RemoteLock.Server RemoteLock.Client RemoteLock.Poll

/-- C1: every admin mutation (POST /api/lock, /api/unlock, /api/message)
whose supplied secret (header X-Lock-Secret or query parameter secret)
does not equal the configured admin secret answers 403 Forbidden and
leaves the LockState exactly as it was. -/
theorem C1_wrong_secret_forbidden_state_unchanged
    (adminSecret : String) (s : LockState) (r : Request)
    (now : Nat) (addr : String)
    (h : effToken r ≠ some adminSecret) :
    Server.lock adminSecret s r now addr = (.forbidden, s) ∧
    Server.unlock adminSecret s r now = (.forbidden, s) ∧
    Server.updateMessage adminSecret s r = (.forbidden, s) := by
  have hb : requireAuth adminSecret r = false := by
    simp [requireAuth, h]
  refine ⟨?_, ?_, ?_⟩ <;> simp [Server.lock, Server.unlock, Server.updateMessage, hb]

/-- Witness for C1 at a concrete wrong-secret request. -/
theorem C1_wrong_secret_forbidden_state_unchanged_witness :
    effToken { headerSecret := some "wrong", querySecret := none,
               body := .emptyData } ≠ some "change-me-secret-123" ∧
    (Server.lock "change-me-secret-123" initialLockState
        { headerSecret := some "wrong", querySecret := none, body := .emptyData }
        0 "1.2.3.4" = (.forbidden, initialLockState) ∧
     Server.unlock "change-me-secret-123" initialLockState
        { headerSecret := some "wrong", querySecret := none, body := .emptyData }
        0 = (.forbidden, initialLockState) ∧
     Server.updateMessage "change-me-secret-123" initialLockState
        { headerSecret := some "wrong", querySecret := none, body := .emptyData }
        = (.forbidden, initialLockState)) :=
  ⟨by decide, C1_wrong_secret_forbidden_state_unchanged "change-me-secret-123"
      initialLockState _ 0 "1.2.3.4" (by decide)⟩

/-- C2: POST /api/lock with the correct secret and body
`\x7b"message":"test"\x7d` answers ok with a state having locked = true and
message = "test", and GET /api/status on the resulting state (no
intervening mutation) still shows locked = true. -/
theorem C2_lock_correct_secret
    (adminSecret : String) (s : LockState) (r : Request)
    (now : Nat) (addr : String)
    (hauth : effToken r = some adminSecret)
    (hbody : r.body = .obj (some (some "test"))) :
    (Server.lock adminSecret s r now addr).1 =
      .ok (Server.lock adminSecret s r now addr).2 ∧
    (Server.lock adminSecret s r now addr).2.locked = true ∧
    (Server.lock adminSecret s r now addr).2.message = some "test" ∧
    Server.status (Server.lock adminSecret s r now addr).2 =
      (Server.lock adminSecret s r now addr).2 ∧
    (Server.status (Server.lock adminSecret s r now addr).2).locked = true := by
  have hb : requireAuth adminSecret r = true := by
    simp [requireAuth, hauth]
  simp [Server.lock, Server.status, hb, hbody]

/-- Witness for C2 at a concrete correct-secret lock request. -/
theorem C2_lock_correct_secret_witness :
    effToken { headerSecret := some "change-me-secret-123", querySecret := none,
               body := .obj (some (some "test")) } = some "change-me-secret-123" ∧
    ({ headerSecret := some "change-me-secret-123", querySecret := none,
       body := .obj (some (some "test")) } : Request).body
      = .obj (some (some "test")) ∧
    ((Server.lock "change-me-secret-123" initialLockState
        { headerSecret := some "change-me-secret-123", querySecret := none,
          body := .obj (some (some "test")) } 7 "1.2.3.4").1 =
      .ok (Server.lock "change-me-secret-123" initialLockState
        { headerSecret := some "change-me-secret-123", querySecret := none,
          body := .obj (some (some "test")) } 7 "1.2.3.4").2 ∧
     (Server.lock "change-me-secret-123" initialLockState
        { headerSecret := some "change-me-secret-123", querySecret := none,
          body := .obj (some (some "test")) } 7 "1.2.3.4").2.locked = true ∧
     (Server.lock "change-me-secret-123" initialLockState
        { headerSecret := some "change-me-secret-123", querySecret := none,
          body := .obj (some (some "test")) } 7 "1.2.3.4").2.message = some "test" ∧
     Server.status (Server.lock "change-me-secret-123" initialLockState
        { headerSecret := some "change-me-secret-123", querySecret := none,
          body := .obj (some (some "test")) } 7 "1.2.3.4").2 =
      (Server.lock "change-me-secret-123" initialLockState
        { headerSecret := some "change-me-secret-123", querySecret := none,
          body := .obj (some (some "test")) } 7 "1.2.3.4").2 ∧
     (Server.status (Server.lock "change-me-secret-123" initialLockState
        { headerSecret := some "change-me-secret-123", querySecret := none,
          body := .obj (some (some "test")) } 7 "1.2.3.4").2).locked = true) :=
  ⟨by decide, by decide,
   C2_lock_correct_secret "change-me-secret-123" initialLockState _ 7 "1.2.3.4"
     (by decide) (by decide)⟩

/-- C7 fails on the code: a POST /api/lock carrying the correct secret
whose JSON body is a truthy non-object (e.g. `[1]`) first executes
`locked := True`, then crashes in `data.get` with AttributeError before
`triggered_at` is written — a lock-state transition through the mutation
endpoint after which `triggeredAt` is still unset, observable by any
subsequent GET /api/status, while the admin gets a 500. -/
theorem C7_lock_partial_write_failing_input :
    initialLockState.locked = false ∧
    (Server.lock "change-me-secret-123" initialLockState
        { headerSecret := some "change-me-secret-123", querySecret := none,
          body := .truthyNonObj } 42 "1.2.3.4").1 = .serverError ∧
    (Server.lock "change-me-secret-123" initialLockState
        { headerSecret := some "change-me-secret-123", querySecret := none,
          body := .truthyNonObj } 42 "1.2.3.4").2.locked = true ∧
    (Server.lock "change-me-secret-123" initialLockState
        { headerSecret := some "change-me-secret-123", querySecret := none,
          body := .truthyNonObj } 42 "1.2.3.4").2.triggered_at = none ∧
    Server.status (Server.lock "change-me-secret-123" initialLockState
        { headerSecret := some "change-me-secret-123", querySecret := none,
          body := .truthyNonObj } 42 "1.2.3.4").2 =
      (Server.lock "change-me-secret-123" initialLockState
        { headerSecret := some "change-me-secret-123", querySecret := none,
          body := .truthyNonObj } 42 "1.2.3.4").2 := by decide

/-- C10: POST /api/message with a valid secret changes only the `message`
field: `locked`, `triggered_at` and `triggered_by` are unchanged, and if
the body carries no "message" key the `message` field is unchanged too. -/
theorem C10_update_message_frame
    (adminSecret : String) (s : LockState) (r : Request)
    (hauth : effToken r = some adminSecret) :
    (Server.updateMessage adminSecret s r).2.locked = s.locked ∧
    (Server.updateMessage adminSecret s r).2.triggered_at = s.triggered_at ∧
    (Server.updateMessage adminSecret s r).2.triggered_by = s.triggered_by ∧
    (r.body = .emptyData ∨ r.body = .obj none ∨ r.body = .truthyNonObj →
      (Server.updateMessage adminSecret s r).2.message = s.message) := by
  have hb : requireAuth adminSecret r = true := by
    simp [requireAuth, hauth]
  rcases hr : r.body with _ | m | _ <;>
    refine ⟨?_, ?_, ?_, fun hm => ?_⟩ <;>
    simp_all [Server.updateMessage, hb]

/-- Witness for C10 at a concrete valid-secret message request. -/
theorem C10_update_message_frame_witness :
    effToken { headerSecret := some "change-me-secret-123", querySecret := none,
               body := .emptyData } = some "change-me-secret-123" ∧
    ((Server.updateMessage "change-me-secret-123" initialLockState
        { headerSecret := some "change-me-secret-123", querySecret := none,
          body := .emptyData }).2.locked = initialLockState.locked ∧
     (Server.updateMessage "change-me-secret-123" initialLockState
        { headerSecret := some "change-me-secret-123", querySecret := none,
          body := .emptyData }).2.triggered_at = initialLockState.triggered_at ∧
     (Server.updateMessage "change-me-secret-123" initialLockState
        { headerSecret := some "change-me-secret-123", querySecret := none,
          body := .emptyData }).2.triggered_by = initialLockState.triggered_by ∧
     (({ headerSecret := some "change-me-secret-123", querySecret := none,
         body := .emptyData } : Request).body = .emptyData ∨
      ({ headerSecret := some "change-me-secret-123", querySecret := none,
         body := .emptyData } : Request).body = .obj none ∨
      ({ headerSecret := some "change-me-secret-123", querySecret := none,
         body := .emptyData } : Request).body = .truthyNonObj →
       (Server.updateMessage "change-me-secret-123" initialLockState
          { headerSecret := some "change-me-secret-123", querySecret := none,
            body := .emptyData }).2.message = initialLockState.message)) :=
  ⟨by decide,
   C10_update_message_frame "change-me-secret-123" initialLockState _ (by decide)⟩

/-- A push-session state that has received AUTH_OK (authenticated). -/
def authedSession : ClientState :=
  { connected := true
    authenticated := true
    reconnectDelay := 2
    lastPongAt := none }

/-- An open push-session state that has not received AUTH_OK. -/
def unauthedSession : ClientState :=
  { connected := true
    authenticated := false
    reconnectDelay := 2
    lastPongAt := none }

/-- Counterexample to C3: an authenticated session receiving a LOCK
message emits no action at all (the client has no LOCK branch, so the
Platform Action lock() is never invoked), and an unauthenticated session
receiving UNLOCK does invoke unlock — so it is not only authenticated
sessions that execute commands. -/
theorem C3_counterexample :
    (Client.onMessage authedSession (.tagged (some "LOCK"))).2 = [] ∧
    (Client.onMessage unauthedSession (.tagged (some "UNLOCK"))).2 =
      [.unlockScreen] := by decide

/-- C3 amended: in every session state, authenticated or not, an UNLOCK
message invokes the Platform Action unlock() (and changes nothing else),
while a LOCK message is not handled at all: no platform action is
invoked and the state is unchanged. -/
theorem C3_amended_unlock_any_state_lock_unhandled (s : ClientState) :
    Client.onMessage s (.tagged (some "UNLOCK")) = (s, [.unlockScreen]) ∧
    Client.onMessage s (.tagged (some "LOCK")) = (s, []) := by
  constructor <;> simp [Client.onMessage]

/-- C4: a session that has not received AUTH_OK (authenticated = false)
still runs unlock_screen on an UNLOCK message: no authentication check
guards command execution at the client. -/
theorem C4_unlock_without_auth (s : ClientState)
    (_h : s.authenticated = false) :
    Client.onMessage s (.tagged (some "UNLOCK")) = (s, [.unlockScreen]) := by
  simp [Client.onMessage]

/-- Witness for C4 at the freshly constructed (unauthenticated) client. -/
theorem C4_unlock_without_auth_witness :
    initClient.authenticated = false ∧
    Client.onMessage initClient (.tagged (some "UNLOCK")) =
      (initClient, [.unlockScreen]) :=
  ⟨rfl, C4_unlock_without_auth initClient rfl⟩

/-- C5: the poll loop acts exactly at edges of `locked`: a false→true
observation raises the lock surface, a true→false observation lowers it,
equal consecutive values produce no action; the sequence
false, true, true, false yields exactly the two transitions raise, lower. -/
theorem C5_poll_edge_triggered :
    (∀ (w : Bool) (snap : Snapshot),
       (pollStep w snap).2 = some (.raiseLock snap.message) ↔
         w = false ∧ snap.locked = true) ∧
    (∀ (w : Bool) (snap : Snapshot),
       (pollStep w snap).2 = some .lowerLock ↔
         w = true ∧ snap.locked = false) ∧
    (∀ (w : Bool) (snap : Snapshot),
       (pollStep w snap).2 = none ↔ w = snap.locked) ∧
    (∀ (w : Bool) (snap : Snapshot), (pollStep w snap).1 = snap.locked) ∧
    (pollRun false
        [⟨false, "m0"⟩, ⟨true, "m1"⟩, ⟨true, "m2"⟩, ⟨false, "m3"⟩]).2 =
      [.raiseLock "m1", .lowerLock] := by
  refine ⟨?_, ?_, ?_, ?_, by decide⟩ <;>
    (intro w snap; rcases snap with ⟨l, m⟩; cases w <;> cases l <;>
      simp [pollStep])

/-- Counterexample to C8: receiving a PONG message does not update any
`lastPongAt` — the handler body is `pass`, the client defines no such
attribute, and the session state after the PONG is byte-for-byte the
state before it (`lastPongAt` still unset). -/
theorem C8_counterexample :
    (Client.onMessage authedSession (.tagged (some "PONG"))).1.lastPongAt =
      none ∧
    Client.onMessage authedSession (.tagged (some "PONG")) =
      (authedSession, []) := by decide

/-- C8 amended: receiving a PONG message leaves the session state
entirely unchanged and emits no action; in particular no lastPongAt
bookkeeping exists in the client. -/
theorem C8_amended_pong_no_effect (s : ClientState) :
    Client.onMessage s (.tagged (some "PONG")) = (s, []) := by
  simp [Client.onMessage]

/-- C9: a malformed (non-JSON-decodable) message is dropped with no
effect on session state and no action, and the connection keeps
processing: a message stream starting with a malformed message behaves
exactly like the stream without it. -/
theorem C9_malformed_dropped (s : ClientState) (ms : List WireMsg) :
    Client.onMessage s .malformed = (s, []) ∧
    Client.processMessages s (.malformed :: ms) =
      Client.processMessages s ms := by
  refine ⟨rfl, ?_⟩
  simp [Client.processMessages, Client.onMessage]

/-- `_on_message` never touches the connection flag. -/
theorem onMessage_preserves_connected (s : ClientState) (m : WireMsg) :
    (Client.onMessage s m).1.connected = s.connected := by
  cases m with
  | malformed => rfl
  | tagged t =>
    simp only [Client.onMessage]
    split_ifs <;> rfl

/-- `_on_message` never touches the reconnect delay. -/
theorem onMessage_preserves_delay (s : ClientState) (m : WireMsg) :
    (Client.onMessage s m).1.reconnectDelay = s.reconnectDelay := by
  cases m with
  | malformed => rfl
  | tagged t =>
    simp only [Client.onMessage]
    split_ifs <;> rfl

/-- While the connection is open the reconnect delay is 2: `_on_open` set
it, and nothing changes it before `_on_close`. -/
theorem runState_connected_delay (tr : List ClientEvent) (s : ClientState)
    (h : s.connected = true → s.reconnectDelay = 2) :
    (Client.runState s tr).connected = true →
      (Client.runState s tr).reconnectDelay = 2 := by
  induction tr generalizing s with
  | nil => exact h
  | cons e es ih =>
    simp only [Client.runState]
    cases e with
    | opened => exact ih _ (fun _ => rfl)
    | recv m =>
      refine ih _ (fun hc => ?_)
      simp only [Client.step] at hc ⊢
      rw [onMessage_preserves_delay]
      rw [onMessage_preserves_connected] at hc
      exact h hc
    | closed =>
      refine ih _ (fun hc => ?_)
      simp [Client.step] at hc

/-- The sleeps of a run of consecutive failed attempts follow `sleepSeq`
from the current delay. -/
theorem sleeps_replicate_closed (n : Nat) (s : ClientState) :
    Client.sleepsOf (Client.runActs s (List.replicate n .closed)) =
      Client.sleepSeq s.reconnectDelay n := by
  induction n generalizing s with
  | zero => rfl
  | succ k ih =>
    rw [List.replicate_succ]
    simp only [Client.runActs, Client.step, List.cons_append, List.nil_append]
    rw [Client.sleepSeq, Client.sleepsOf]
    congr 1
    exact ih _

/-- Doubling-with-cap on a capped power of two gives the next capped
power of two. -/
theorem nextDelay_min_pow (j : Nat) :
    Client.nextDelay (min (2 ^ (j + 1)) 60) = min (2 ^ (j + 2)) 60 := by
  have h : (2 : Nat) ^ (j + 2) = 2 ^ (j + 1) * 2 := by ring
  rw [Client.nextDelay, h]
  omega

/-- Closed form of the backoff sequence from a capped power of two. -/
theorem sleepSeq_pow (n : Nat) : ∀ j : Nat,
    Client.sleepSeq (min (2 ^ (j + 1)) 60) n =
      (List.range n).map (fun k => min (2 ^ (j + k + 1)) 60) := by
  induction n with
  | zero => intro j; rfl
  | succ m ih =>
    intro j
    rw [Client.sleepSeq, nextDelay_min_pow, ih (j + 1),
        List.range_succ_eq_map, List.map_cons, List.map_map]
    congr 1
    refine List.map_congr_left fun k _ => ?_
    simp only [Function.comp]
    congr 2
    omega

/-- Closed form of the backoff sequence from the initial delay 2. -/
theorem sleepSeq_two (n : Nat) :
    Client.sleepSeq 2 n = (List.range n).map (fun k => min (2 ^ (k + 1)) 60) := by
  have h0 : (2 : Nat) = min (2 ^ (0 + 1)) 60 := by norm_num
  rw [h0, sleepSeq_pow n 0]
  refine List.map_congr_left fun k _ => ?_
  congr 2
  omega

/-- C6: the delays slept between consecutive failed connection attempts
are min(2^(k+1), 60), i.e. 2, 4, 8, 16, 32, 60, 60, ... — monotone
non-decreasing, starting at 2, doubling per failure, capped at 60 — and
in any reachable connected state (the only states in which AUTH_OK can
arrive) the delay is already back to 2, so at the step where the session
becomes authenticated the delay is 2. -/
theorem C6_backoff_sequence_and_reset (n : Nat) (tr : List ClientEvent)
    (hconn : (Client.runState initClient tr).connected = true) :
    Client.sleepsOf (Client.runActs initClient (List.replicate n .closed)) =
      (List.range n).map (fun k => min (2 ^ (k + 1)) 60) ∧
    (Client.sleepsOf
        (Client.runActs initClient (List.replicate n .closed))).Pairwise (· ≤ ·) ∧
    (∀ x ∈ Client.sleepsOf (Client.runActs initClient (List.replicate n .closed)),
       x ≤ 60) ∧
    Client.sleepsOf (Client.runActs initClient (List.replicate 7 .closed)) =
      [2, 4, 8, 16, 32, 60, 60] ∧
    (Client.runState initClient tr).reconnectDelay = 2 ∧
    (Client.step (Client.runState initClient tr)
        (.recv (.tagged (some "AUTH_OK")))).1.authenticated = true ∧
    (Client.step (Client.runState initClient tr)
        (.recv (.tagged (some "AUTH_OK")))).1.reconnectDelay = 2 := by
  have key : Client.sleepsOf (Client.runActs initClient (List.replicate n .closed)) =
      (List.range n).map (fun k => min (2 ^ (k + 1)) 60) := by
    rw [sleeps_replicate_closed]
    exact sleepSeq_two n
  have hdelay : (Client.runState initClient tr).reconnectDelay = 2 :=
    runState_connected_delay tr initClient (fun _ => rfl) hconn
  refine ⟨key, ?_, ?_, by decide, hdelay, ?_, ?_⟩
  · rw [key, List.pairwise_map]
    refine (List.pairwise_lt_range n).imp fun hab => ?_
    exact min_le_min (Nat.pow_le_pow_right (by norm_num) (by omega)) le_rfl
  · rw [key]
    intro x hx
    rw [List.mem_map] at hx
    obtain ⟨k, _, hk⟩ := hx
    omega
  · simp [Client.step, Client.onMessage]
  · simp only [Client.step]
    rw [onMessage_preserves_delay]
    exact hdelay

/-- Witness for C6: after the trace in which the connection just opened,
the state is connected, and the theorem applies with three failures. -/
theorem C6_backoff_sequence_and_reset_witness :
    (Client.runState initClient [.opened]).connected = true ∧
    (Client.sleepsOf (Client.runActs initClient (List.replicate 3 .closed)) =
       (List.range 3).map (fun k => min (2 ^ (k + 1)) 60) ∧
     (Client.sleepsOf
         (Client.runActs initClient (List.replicate 3 .closed))).Pairwise (· ≤ ·) ∧
     (∀ x ∈ Client.sleepsOf (Client.runActs initClient (List.replicate 3 .closed)),
        x ≤ 60) ∧
     Client.sleepsOf (Client.runActs initClient (List.replicate 7 .closed)) =
       [2, 4, 8, 16, 32, 60, 60] ∧
     (Client.runState initClient [.opened]).reconnectDelay = 2 ∧
     (Client.step (Client.runState initClient [.opened])
         (.recv (.tagged (some "AUTH_OK")))).1.authenticated = true ∧
     (Client.step (Client.runState initClient [.opened])
         (.recv (.tagged (some "AUTH_OK")))).1.reconnectDelay = 2) :=
  ⟨by decide, C6_backoff_sequence_and_reset 3 [.opened] (by decide)⟩
